import Mathlib

/-!
Verification of the GNAP authorization-server REST layer
(pkg/restapi/gnap/operations.go and spi/gnap/models.go).

The Go handlers are embedded shallowly: each handler becomes a pure Lean
function over the outcomes of its external calls (body read, JSON
unmarshal, the auth-handler entry points, the transient store, the OIDC
client library), which are passed in as explicit arguments.  Machine
effects that the claims are about - which verifier is constructed, which
store operations run, which lock operations run - are reified as data in
the handler result.
-/

namespace Gnap

/-! ## Bytes and Go string helpers -/

/-- A byte string, as read by ioutil.ReadAll. -/
abbrev Bytes := List Nat

/-- Splits a character list at every occurrence of the separator, keeping
empty fields, exactly like Go strings.Split with a one-character
separator: the result always has one more element than the number of
separator occurrences. -/
def splitChars (sep : Char) : List Char → List (List Char)
  | [] => [[]]
  | c :: cs =>
    let rest := splitChars sep cs
    if c = sep then [] :: rest
    else
      match rest with
      | [] => [[c]]
      | g :: gs => (c :: g) :: gs

/-- Go strings.Split for a single-character separator. -/
def goSplit (s : String) (sep : Char) : List String :=
  (splitChars sep s.data).map fun l => String.mk l

/-- Go strings.Trim with the cutset consisting of the single character:
removes all leading and trailing occurrences. -/
def goTrimChar (s : String) (c : Char) : String :=
  String.mk (((s.data.dropWhile (· = c)).reverse.dropWhile (· = c)).reverse)

/-! ## GNAP wire model (spi/gnap/models.go)

jwk.JWK is an external opaque key payload; it is modelled as a string. -/

/-- GNAP error response codes (operations.go constants). -/
def errInvalidRequest : String := "invalid_request"

def errRequestDenied : String := "request_denied"

structure ClientKey where
  proof : String
  jwk : String
  deriving DecidableEq, Inhabited

structure RequestClient where
  isReference : Bool
  ref : String
  key : Option ClientKey
  deriving DecidableEq, Inhabited

/-- AccessFlag is a string type with three constants. -/
abbrev AccessFlag := String

def Bearer : AccessFlag := "bearer"

def Durable : AccessFlag := "durable"

def Split : AccessFlag := "split"

/-- A token access descriptor: a string reference or an object with a
type tag (the raw object payload is opaque to the handlers). -/
structure TokenAccess where
  isReference : Bool
  ref : String
  type : String
  deriving DecidableEq, Inhabited

structure TokenRequest where
  access : List TokenAccess
  label : String
  flags : List AccessFlag
  deriving DecidableEq, Inhabited

structure RequestFinish where
  method : String
  uri : String
  nonce : String
  deriving DecidableEq, Inhabited

structure RequestInteract where
  start : List String
  finish : RequestFinish
  deriving DecidableEq, Inhabited

structure AuthRequest where
  accessToken : List TokenRequest
  client : Option RequestClient
  interact : Option RequestInteract
  deriving DecidableEq, Inhabited

structure AccessToken where
  value : String
  label : String
  manage : String
  access : List TokenAccess
  expires : Int
  key : String
  flags : List AccessFlag
  deriving DecidableEq, Inhabited

structure ResponseContinue where
  uri : String
  accessToken : AccessToken
  wait : Int
  deriving DecidableEq, Inhabited

structure ResponseInteract where
  redirect : String
  finish : String
  deriving DecidableEq, Inhabited

structure SubjectID where
  id : String
  format : String
  deriving DecidableEq, Inhabited

structure SubjectAssertion where
  value : String
  format : String
  deriving DecidableEq, Inhabited

structure Subject where
  subIDs : List SubjectID
  assertions : List SubjectAssertion
  deriving DecidableEq, Inhabited

structure AuthResponse where
  cont : ResponseContinue
  accessToken : List AccessToken
  interact : ResponseInteract
  instanceID : String
  subject : Subject
  deriving DecidableEq, Inhabited

structure ContinueRequest where
  interactRef : String
  deriving DecidableEq, Inhabited

structure ErrorResponse where
  error : String
  description : String
  deriving DecidableEq, Inhabited

structure IntrospectRequest where
  accessToken : String
  proof : String
  access : List TokenAccess
  resourceServer : Option RequestClient
  deriving DecidableEq, Inhabited

structure IntrospectResponse where
  active : Bool
  access : List TokenAccess
  key : Option ClientKey
  flags : List AccessFlag
  subjectData : List (String × String)
  deriving DecidableEq, Inhabited

/-! ## Verifiers

The Go handlers either construct an httpsig verifier over the live HTTP
request (httpsig.NewVerifier(req)) or pass the server-internal bypass
verifier.  Which one was constructed is reified as a tag; the live
request is identified by a request id. -/

inductive VerifierKind where
  | httpsig (reqId : Nat)
  | skip
  deriving DecidableEq, Inhabited

/-- The bypass verifier type (operations.go: type skipVerify struct).
Its Verify method returns nil (here: none) for every client key. -/
structure skipVerify where
  deriving DecidableEq, Inhabited

/-- Verify of skipVerify: skip request verification when introspecting
internally through Go; unconditionally no error. -/
def skipVerify.Verify (_s : skipVerify) (_k : ClientKey) : Option String :=
  none

/-! ## HTTP responses

writeResponse JSON-encodes a value without touching the status code, so
the implicit Go status 200 applies; writeErrorResponse writes an
explicit status and a plain-text formatted message. -/

inductive RespBody (α : Type) where
  | err (e : ErrorResponse)
  | ok (v : α)
  | text (msg : String)
  | htmlRedirect (uri iref hash : String)
  | found (url : String)
  deriving DecidableEq, Inhabited

structure HTTPResponse (α : Type) where
  status : Nat
  body : RespBody α
  deriving DecidableEq, Inhabited

/-- writeErrorResponse(w, status, msg): status plus plain-text body. -/
def writeErrorResponse (status : Nat) (msg : String) : HTTPResponse Unit :=
  ⟨status, .text msg⟩

/-! ## POST /gnap/auth (operations.go authRequestHandler) -/

structure AuthReqOutcome where
  resp : HTTPResponse AuthResponse
  /-- the single HandleAccessRequest invocation, if reached: its request,
  the verifier passed, and the continuation-token argument. -/
  handleCall : Option (AuthRequest × VerifierKind × String)

def authRequestHandler (reqId : Nat) (readBody : Except String Bytes)
    (unmarshalAuth : Bytes → Except String AuthRequest)
    (handleAccessRequest : AuthRequest → VerifierKind → String → Except String AuthResponse) :
    AuthReqOutcome :=
  match readBody with
  | .error _ => ⟨⟨500, .err ⟨errRequestDenied, ""⟩⟩, none⟩
  | .ok bodyBytes =>
    match unmarshalAuth bodyBytes with
    | .error _ => ⟨⟨400, .err ⟨errInvalidRequest, ""⟩⟩, none⟩
    | .ok authRequest =>
      let v := VerifierKind.httpsig reqId
      match handleAccessRequest authRequest v "" with
      | .error _ => ⟨⟨401, .err ⟨errRequestDenied, ""⟩⟩, some (authRequest, v, "")⟩
      | .ok resp => ⟨⟨200, .ok resp⟩, some (authRequest, v, "")⟩

/-! ## POST /gnap/continue (operations.go authContinueHandler) -/

structure ContinueOutcome where
  resp : HTTPResponse AuthResponse
  /-- whether ioutil.ReadAll on the body was reached. -/
  bodyRead : Bool
  /-- the local token variable, set once the header check passes. -/
  tokenVar : Option String
  /-- the single HandleContinueRequest invocation, if reached. -/
  handleCall : Option (ContinueRequest × String × VerifierKind)

/-- The token accepted by the header check of authContinueHandler:
tokHeader := strings.Split(strings.Trim(hdr, " "), " "); the check
len(tokHeader) < 2 or tokHeader[0] != "GNAP" fails exactly when the
split has shape "GNAP" :: token :: rest, and then token := tokHeader[1]. -/
def gnapTokenOf (hdr : String) : Option String :=
  match goSplit (goTrimChar hdr ' ') ' ' with
  | a :: b :: _ => if a = "GNAP" then some b else none
  | _ => none

def authContinueHandler (reqId : Nat) (authorizationHeader : String)
    (readBody : Except String Bytes)
    (unmarshalContinue : Bytes → Except String ContinueRequest)
    (handleContinueRequest : ContinueRequest → String → VerifierKind → Except String AuthResponse) :
    ContinueOutcome :=
  match goSplit (goTrimChar authorizationHeader ' ') ' ' with
  | a :: token :: _ =>
    if a = "GNAP" then
      match readBody with
      | .error _ => ⟨⟨500, .err ⟨errRequestDenied, ""⟩⟩, true, some token, none⟩
      | .ok bodyBytes =>
        match unmarshalContinue bodyBytes with
        | .error _ => ⟨⟨400, .err ⟨errInvalidRequest, ""⟩⟩, true, some token, none⟩
        | .ok continueRequest =>
          let v := VerifierKind.httpsig reqId
          match handleContinueRequest continueRequest token v with
          | .error _ =>
            ⟨⟨401, .err ⟨errRequestDenied, ""⟩⟩, true, some token, some (continueRequest, token, v)⟩
          | .ok resp => ⟨⟨200, .ok resp⟩, true, some token, some (continueRequest, token, v)⟩
    else ⟨⟨401, .err ⟨errRequestDenied, ""⟩⟩, false, none, none⟩
  | _ => ⟨⟨401, .err ⟨errRequestDenied, ""⟩⟩, false, none, none⟩

/-! ## POST /gnap/introspect (operations.go introspectHandler) and the
server-internal introspection entry point -/

structure IntrospectOutcome where
  resp : HTTPResponse IntrospectResponse
  /-- the single HandleIntrospection invocation, if reached. -/
  handleCall : Option (IntrospectRequest × VerifierKind)

def introspectHandler (reqId : Nat) (readBody : Except String Bytes)
    (unmarshalIntrospect : Bytes → Except String IntrospectRequest)
    (handleIntrospection : IntrospectRequest → VerifierKind → Except String IntrospectResponse) :
    IntrospectOutcome :=
  match readBody with
  | .error _ => ⟨⟨500, .err ⟨errRequestDenied, ""⟩⟩, none⟩
  | .ok bodyBytes =>
    match unmarshalIntrospect bodyBytes with
    | .error _ => ⟨⟨400, .err ⟨errInvalidRequest, ""⟩⟩, none⟩
    | .ok introspectRequest =>
      let v := VerifierKind.httpsig reqId
      match handleIntrospection introspectRequest v with
      | .error _ => ⟨⟨401, .err ⟨errRequestDenied, ""⟩⟩, some (introspectRequest, v)⟩
      | .ok resp => ⟨⟨200, .ok resp⟩, some (introspectRequest, v)⟩

/-- InternalIntrospectHandler: the in-process introspecter given to the
server's own handlers; it calls HandleIntrospection with the bypass
verifier. -/
def InternalIntrospectHandler
    (handleIntrospection : IntrospectRequest → VerifierKind → Except String IntrospectResponse)
    (req : IntrospectRequest) : Except String IntrospectResponse :=
  handleIntrospection req .skip

/-! ## Transient store

The aries storage.Store is modelled at the decoded-value level: keys are
strings, values are the oidcTransientData records the handlers marshal
into it (the JSON byte layer is a bijection the claims do not touch, so
the unmarshal-failure branch of the callback is not represented).  Get
does not modify the store; Put overwrites the key. -/

structure oidcTransientData where
  provider : String
  txnID : String
  deriving DecidableEq, Inhabited

inductive StoreOp where
  | get (key : String)
  | put (key : String) (val : oidcTransientData)
  deriving DecidableEq, Inhabited

abbrev TStore := List (String × oidcTransientData)

/-- Store lookup; a missing key yields the aries data-not-found error. -/
def storeGet (st : TStore) (key : String) : Except String oidcTransientData :=
  match st.find? (fun p => p.1 == key) with
  | some p => .ok p.2
  | none => .error "data not found"

def applyStoreOp (st : TStore) : StoreOp → TStore
  | .get _ => st
  | .put k v => (k, v) :: st.filter (fun p => p.1 != k)

/-! ## GET /oidc/callback (operations.go oidcCallbackHandler)

The environment carries the request query parameters and the outcomes of
the external calls made after the transient-store lookup: provider
cache, oauth2 code exchange, id_token verification, claim extraction,
CompleteInteraction, url.Parse of the client finish URI, and the HTML
template.  The transient-store lookup outcome is a separate argument so
that the handler can be run against an explicit store. -/

structure OAuthToken where
  /-- the Extra("id_token") field, when present and a string. -/
  idToken : Option String

structure IDToken where
  /-- outcome of Claims extraction: the sub claim. -/
  claimsSub : Except String String

structure CallbackProvider where
  exchange : String → Except String OAuthToken
  verify : String → Except String IDToken

structure CallbackEnv where
  state : String
  code : String
  getProvider : String → Except String CallbackProvider
  /-- CompleteInteraction txnID sub, yielding interact_ref, response
  hash, and the client interact spec carrying finish.uri. -/
  completeInteraction : String → String → Except String (String × String × RequestInteract)
  parseFinishURI : String → Except String Unit
  parseTemplate : Except String Unit

/-- The transient-store operations performed by one callback request:
exactly one Get on the state key, issued after both query-parameter
checks pass (the handler never writes or deletes). -/
def oidcCallbackOps (env : CallbackEnv) : List StoreOp :=
  if env.state = "" then []
  else if env.code = "" then []
  else [.get env.state]

def oidcCallbackHandler (env : CallbackEnv) (tget : Except String oidcTransientData) :
    HTTPResponse Unit :=
  if env.state = "" then writeErrorResponse 400 "missing state"
  else if env.code = "" then writeErrorResponse 400 "missing code"
  else
    match tget with
    | .error e => writeErrorResponse 400 ("failed to get state data to transient store: " ++ e)
    | .ok data =>
      match env.getProvider data.provider with
      | .error e => writeErrorResponse 400 ("get provider : " ++ e)
      | .ok provider =>
        match provider.exchange env.code with
        | .error e => writeErrorResponse 502 ("failed to exchange oauth2 code for token : " ++ e)
        | .ok oauthToken =>
          match oauthToken.idToken with
          | none => writeErrorResponse 502 "missing id_token"
          | some rawIDToken =>
            match provider.verify rawIDToken with
            | .error e => writeErrorResponse 403 ("failed to verify id_token : " ++ e)
            | .ok oidcToken =>
              match oidcToken.claimsSub with
              | .error e =>
                writeErrorResponse 500 ("failed to extract claims from id_token : " ++ e)
              | .ok sub =>
                match env.completeInteraction data.txnID sub with
                | .error e =>
                  writeErrorResponse 500 ("failed to complete GNAP interaction : " ++ e)
                | .ok (interactRef, responseHash, clientInteract) =>
                  match env.parseFinishURI clientInteract.finish.uri with
                  | .error e =>
                    writeErrorResponse 400 ("client provided invalid redirect URI : " ++ e)
                  | .ok _ =>
                    match env.parseTemplate with
                    | .error e =>
                      writeErrorResponse 500 ("failed to parse template : " ++ e)
                    | .ok _ =>
                      ⟨200, .htmlRedirect clientInteract.finish.uri interactRef responseHash⟩

/-- Runs one callback request against an explicit transient store: the
store lookup is served by the store, and the store operations of the
request are applied to produce the post-request store. -/
def runCallbackOnStore (env : CallbackEnv) (st : TStore) : HTTPResponse Unit × TStore :=
  (oidcCallbackHandler env (storeGet st env.state),
   (oidcCallbackOps env).foldl applyStoreOp st)

/-! ## GET /oidc/login (operations.go oidcLoginHandler)

json.Marshal of the two-string record cannot fail and is elided; the
freshly minted uuid state is an explicit argument. -/

structure ProviderConfig where
  scopes : List String
  deriving DecidableEq, Inhabited

structure LoginProvider where
  /-- OAuth2Config(scopes...).AuthCodeURL(state, online, provider). -/
  authCodeURL : List String → String → String

structure LoginEnv where
  providerID : String
  txnID : String
  getProvider : String → Except String LoginProvider
  oidcProvidersConfig : String → Option ProviderConfig
  state : String
  putResult : Except String Unit

/-- The login handler; the second component lists the successful
transient-store writes (the single Put of the state record, when it
succeeds). -/
def oidcLoginHandler (env : LoginEnv) : HTTPResponse Unit × List StoreOp :=
  if env.providerID = "" then (writeErrorResponse 400 "missing provider", [])
  else if env.txnID = "" then (writeErrorResponse 400 "missing transaction ID", [])
  else
    match env.getProvider env.providerID with
    | .error e => (writeErrorResponse 400 ("get provider: " ++ e), [])
    | .ok provider =>
      match env.oidcProvidersConfig env.providerID with
      | none => (writeErrorResponse 500 ("provider not supported: " ++ env.providerID), [])
      | some provConfig =>
        let scopes := "openid" ::
          (if provConfig.scopes ≠ [] then provConfig.scopes else ["profile", "email"])
        let data : oidcTransientData := ⟨env.providerID, env.txnID⟩
        match env.putResult with
        | .error e =>
          (writeErrorResponse 500 ("failed to write state data to transient store: " ++ e), [])
        | .ok _ =>
          (⟨302, .found (provider.authCodeURL scopes env.state)⟩, [.put env.state data])

/-! ## getProvider lock discipline (operations.go getProvider)

The body of getProvider is embedded as the trace of its lock and cache
events, parameterized by the branch outcomes: whether the cache lookup
hits, whether the provider id is configured, and whether initialization
succeeds. -/

inductive LockEv where
  | rlock
  | runlock
  | wlock
  | wunlock
  | cacheRead (providerID : String) (hit : Bool)
  | cacheWrite (providerID : String)
  | initProvider (providerID : String)
  deriving DecidableEq, Inhabited

/-- The event trace of one getProvider call, in source order:
RLock; read cachedOIDCProviders; RUnlock; on a hit return; otherwise
(when configured) initOIDCProvider with no lock held; on success Lock,
write the cache, Unlock. -/
def getProviderTrace (providerID : String) (cacheHit configured initOk : Bool) :
    List LockEv :=
  [.rlock, .cacheRead providerID cacheHit, .runlock] ++
    (if cacheHit then []
     else if configured then
       .initProvider providerID ::
         (if initOk then [.wlock, .cacheWrite providerID, .wunlock] else [])
     else [])

structure LockState where
  readers : Nat
  writer : Bool
  deriving DecidableEq, Inhabited

def lockStep (s : LockState) : LockEv → LockState
  | .rlock => ⟨s.readers + 1, s.writer⟩
  | .runlock => ⟨s.readers - 1, s.writer⟩
  | .wlock => ⟨s.readers, true⟩
  | .wunlock => ⟨s.readers, false⟩
  | _ => s

/-- Checks a predicate on the lock state in force when each event of the
trace occurs. -/
def checkTrace (p : LockState → LockEv → Bool) : LockState → List LockEv → Bool
  | _, [] => true
  | s, ev :: rest => p s ev && checkTrace p (lockStep s ev) rest

/-- Every cache lookup happens with the shared read lock held and no
writer. -/
def lookupUnderReadLock (s : LockState) : LockEv → Bool
  | .cacheRead _ _ => decide (0 < s.readers) && !s.writer
  | _ => true

/-- Every provider initialization happens while holding the exclusive
write lock (the claimed discipline). -/
def initUnderWriteLock (s : LockState) : LockEv → Bool
  | .initProvider _ => s.writer
  | _ => true

/-- Every provider initialization happens with no lock held at all (the
actual discipline). -/
def initLockFree (s : LockState) : LockEv → Bool
  | .initProvider _ => decide (s.readers = 0) && !s.writer
  | _ => true

/-- Every cache write happens under the exclusive write lock. -/
def writeUnderWriteLock (s : LockState) : LockEv → Bool
  | .cacheWrite _ => s.writer
  | _ => true

/-! ## initOIDCProvider retry loop (operations.go initOIDCProvider)

backoff.RetryNotify with backoff.WithMaxRetries(NewConstantBackOff(1s),
o.timeout): the operation is attempted, and on error retried after the
constant interval, at most timeout more times; the last error is
returned.  The model returns the operation result, the number of
attempts made, and the list of sleep intervals between attempts.
Durations are in milliseconds (time.Second = 1000). -/

def retryNotifyAux (operation : Nat → Except String α) (interval : Nat) :
    Nat → Nat → Except String α × Nat × List Nat
  | attempt, 0 =>
    match operation attempt with
    | .ok a => (.ok a, attempt + 1, [])
    | .error e => (.error e, attempt + 1, [])
  | attempt, fuel + 1 =>
    match operation attempt with
    | .ok a => (.ok a, attempt + 1, [])
    | .error _ =>
      let r := retryNotifyAux operation interval (attempt + 1) fuel
      (r.1, r.2.1, interval :: r.2.2)

/-- RetryNotify with WithMaxRetries: at most maxRetries retries after
the first attempt. -/
def retryWithMaxRetries (operation : Nat → Except String α) (interval maxRetries : Nat) :
    Except String α × Nat × List Nat :=
  retryNotifyAux operation interval 0 maxRetries

structure OIDCProviderConfig where
  url : String
  clientID : String
  clientSecret : String
  skipIssuerCheck : Bool
  deriving DecidableEq, Inhabited

structure oidcProviderImpl where
  name : String
  clientID : String
  clientSecret : String
  skipIssuerCheck : Bool
  deriving DecidableEq, Inhabited

/-- initOIDCProvider: retries oidc.NewProvider (the per-attempt outcome
is the newProvider argument) under the constant-backoff policy bounded
by the configured startup timeout count; wraps the final error. -/
def initOIDCProvider (providerID : String) (config : OIDCProviderConfig) (timeout : Nat)
    (newProvider : Nat → Except String Unit) :
    Except String oidcProviderImpl × Nat × List Nat :=
  let r := retryWithMaxRetries newProvider 1000 timeout
  match r.1 with
  | .error e =>
    (.error ("failed to init oidc provider [" ++ providerID ++ "] with url ["
        ++ config.url ++ "]: " ++ e), r.2)
  | .ok _ =>
    (.ok ⟨providerID, config.clientID, config.clientSecret, config.skipIssuerCheck⟩, r.2)

/-! ## JSON decode of AuthRequest.access_token

Modelled from the spec: the custom JSON (un)marshaling of
AuthRequest.access_token is not part of the sources here (spi/gnap only
declares the struct, with a TODO noting that a single TokenRequest is
treated like a slice of one element).  Per the spec, decode treats both
a single object and an array as a (possibly singleton) ordered
sequence, and encode always emits an array.  The element codec is a
parameter. -/

inductive Json where
  | str (s : String)
  | num (n : Int)
  | bool (b : Bool)
  | null
  | arr (xs : List Json)
  | obj (fields : List (String × Json))

/-- Modelled from the spec: decoding the access_token field; an array
decodes elementwise, any other value decodes as a single TokenRequest
and yields a singleton sequence. -/
def decodeAccessTokenField (decodeOne : Json → Option TokenRequest) :
    Json → Option (List TokenRequest)
  | .arr xs => xs.mapM decodeOne
  | j => (decodeOne j).map fun t => [t]

/-- Modelled from the spec: encoding the access_token field always
emits a JSON array. -/
def encodeAccessTokenField (encodeOne : TokenRequest → Json) (ts : List TokenRequest) : Json :=
  .arr (ts.map encodeOne)

def Json.isArr : Json → Bool
  | .arr _ => true
  | _ => false

/-! ## Concrete environments used by counterexamples and witnesses -/

/-- A callback environment that reaches the transient-store lookup and
fails afterwards (the provider cache misses). -/
def cbEnvLeak : CallbackEnv where
  state := "state1"
  code := "code1"
  getProvider := fun _ => .error "no provider"
  completeInteraction := fun _ _ => .error "unused"
  parseFinishURI := fun _ => .error "unused"
  parseTemplate := .error "unused"

def cbProviderOk : CallbackProvider where
  exchange := fun _ => .ok ⟨some "rawIDToken"⟩
  verify := fun _ => .ok ⟨.ok "alice"⟩

/-- A callback environment in which every step after the transient-store
lookup succeeds. -/
def cbEnvOk : CallbackEnv where
  state := "state1"
  code := "code1"
  getProvider := fun _ => .ok cbProviderOk
  completeInteraction := fun _ _ =>
    .ok ("iref1", "hash1", ⟨["redirect"], ⟨"redirect", "https://client.example/cb", "nonce1"⟩⟩)
  parseFinishURI := fun _ => .ok ()
  parseTemplate := .ok ()

def loginEnvW : LoginEnv where
  providerID := "prov1"
  txnID := "txn1"
  getProvider := fun _ =>
    .ok ⟨fun scopes state => String.intercalate " " scopes ++ "|" ++ state⟩
  oidcProvidersConfig := fun _ => some ⟨[]⟩
  state := "state1"
  putResult := .ok ()

/-! ## Helper lemmas -/

theorem authContinueHandler_badHeader (reqId : Nat) (hdr : String)
    (rb : Except String Bytes) (um : Bytes → Except String ContinueRequest)
    (h : ContinueRequest → String → VerifierKind → Except String AuthResponse)
    (htok : gnapTokenOf hdr = none) :
    authContinueHandler reqId hdr rb um h
      = ⟨⟨401, .err ⟨errRequestDenied, ""⟩⟩, false, none, none⟩ := by
  unfold gnapTokenOf at htok
  unfold authContinueHandler
  rcases hs : goSplit (goTrimChar hdr ' ') ' ' with _ | ⟨a, _ | ⟨b, rest⟩⟩
  · rfl
  · rfl
  · rw [hs] at htok
    by_cases ha : a = "GNAP"
    · simp [ha] at htok
    · simp [ha]

theorem authContinueHandler_goodHeader (reqId : Nat) (hdr tok : String)
    (rb : Except String Bytes) (um : Bytes → Except String ContinueRequest)
    (h : ContinueRequest → String → VerifierKind → Except String AuthResponse)
    (htok : gnapTokenOf hdr = some tok) :
    authContinueHandler reqId hdr rb um h =
      match rb with
      | .error _ => ⟨⟨500, .err ⟨errRequestDenied, ""⟩⟩, true, some tok, none⟩
      | .ok bodyBytes =>
        match um bodyBytes with
        | .error _ => ⟨⟨400, .err ⟨errInvalidRequest, ""⟩⟩, true, some tok, none⟩
        | .ok cr =>
          match h cr tok (VerifierKind.httpsig reqId) with
          | .error _ =>
            ⟨⟨401, .err ⟨errRequestDenied, ""⟩⟩, true, some tok,
              some (cr, tok, .httpsig reqId)⟩
          | .ok r => ⟨⟨200, .ok r⟩, true, some tok, some (cr, tok, .httpsig reqId)⟩ := by
  unfold gnapTokenOf at htok
  unfold authContinueHandler
  rcases hs : goSplit (goTrimChar hdr ' ') ' ' with _ | ⟨a, _ | ⟨b, rest⟩⟩
  · rw [hs] at htok; simp at htok
  · rw [hs] at htok; simp at htok
  · rw [hs] at htok
    by_cases ha : a = "GNAP"
    · simp only [ha, if_pos] at htok ⊢
      obtain rfl : b = tok := by simpa using htok
      rfl
    · simp [ha] at htok

theorem authRequestHandler_token_empty (reqId : Nat) (rb : Except String Bytes)
    (um : Bytes → Except String AuthRequest)
    (h : AuthRequest → VerifierKind → String → Except String AuthResponse) :
    ((authRequestHandler reqId rb um h).handleCall).elim True (fun c => c.2.2 = "") := by
  unfold authRequestHandler
  rcases rb with e | bs
  · trivial
  · rcases hu : um bs with e | ar
    · simp [hu]
    · rcases hh : h ar (VerifierKind.httpsig reqId) "" with e | r <;> simp [hu, hh]

theorem authContinueHandler_tokenVar (reqId : Nat) (hdr : String)
    (rb : Except String Bytes) (um : Bytes → Except String ContinueRequest)
    (h : ContinueRequest → String → VerifierKind → Except String AuthResponse) :
    (authContinueHandler reqId hdr rb um h).tokenVar = gnapTokenOf hdr := by
  rcases htok : gnapTokenOf hdr with _ | tok
  · rw [authContinueHandler_badHeader reqId hdr rb um h htok]
  · rw [authContinueHandler_goodHeader reqId hdr tok rb um h htok]
    rcases rb with e | bs
    · rfl
    · rcases hu : um bs with e | cr
      · simp [hu]
      · rcases hh : h cr tok (VerifierKind.httpsig reqId) with e | r <;> simp [hu, hh]

/-! ## Claim theorems -/

/-- Claim C1: the bypass proof verifier used for server-internal
introspection succeeds for every client key (its Verify returns no
error); it is passed to HandleIntrospection only by
InternalIntrospectHandler; and the network-facing handlers (the
introspection endpoint in particular, and likewise the auth and
continue endpoints) always pass an httpsig verifier constructed over
the live HTTP request, never the bypass verifier. -/
theorem bypass_verifier_scoped :
    (∀ (s : skipVerify) (k : ClientKey), s.Verify k = none)
    ∧ (∀ hi req, InternalIntrospectHandler hi req = hi req VerifierKind.skip)
    ∧ (∀ reqId rb um hi,
        ((introspectHandler reqId rb um hi).handleCall).elim True
          fun c => c.2 = VerifierKind.httpsig reqId ∧ c.2 ≠ VerifierKind.skip)
    ∧ (∀ reqId rb um h,
        ((authRequestHandler reqId rb um h).handleCall).elim True
          fun c => c.2.1 = VerifierKind.httpsig reqId ∧ c.2.1 ≠ VerifierKind.skip)
    ∧ (∀ reqId hdr rb um h,
        ((authContinueHandler reqId hdr rb um h).handleCall).elim True
          fun c => c.2.2 = VerifierKind.httpsig reqId ∧ c.2.2 ≠ VerifierKind.skip) := by
  refine ⟨fun s k => rfl, fun hi req => rfl, ?_, ?_, ?_⟩
  · intro reqId rb um hi
    unfold introspectHandler
    rcases rb with e | bs
    · trivial
    · rcases hu : um bs with e | ir
      · simp [hu]
      · rcases hh : hi ir (VerifierKind.httpsig reqId) with e | r <;> simp [hu, hh]
  · intro reqId rb um h
    unfold authRequestHandler
    rcases rb with e | bs
    · trivial
    · rcases hu : um bs with e | ar
      · simp [hu]
      · rcases hh : h ar (VerifierKind.httpsig reqId) "" with e | r <;> simp [hu, hh]
  · intro reqId hdr rb um h
    rcases htok : gnapTokenOf hdr with _ | tok
    · rw [authContinueHandler_badHeader reqId hdr rb um h htok]; trivial
    · rw [authContinueHandler_goodHeader reqId hdr tok rb um h htok]
      rcases rb with e | bs
      · trivial
      · rcases hu : um bs with e | cr
        · simp [hu]
        · rcases hh : h cr tok (VerifierKind.httpsig reqId) with e | r <;> simp [hu, hh]

/-- Claim C3: error mapping of the three GNAP POST endpoints.  Body
unreadable gives 500 with error request_denied; a body that fails JSON
decoding gives 400 with error invalid_request; a missing or malformed
GNAP Authorization header on the continue endpoint gives 401
request_denied without reading the body; an error from the underlying
handler gives 401 request_denied; success gives 200 with the encoded
response object. -/
theorem http_adapter_error_mapping :
    (∀ reqId e um h, (authRequestHandler reqId (.error e) um h).resp
        = ⟨500, .err ⟨errRequestDenied, ""⟩⟩)
    ∧ (∀ reqId bs e h, (authRequestHandler reqId (.ok bs) (fun _ => .error e) h).resp
        = ⟨400, .err ⟨errInvalidRequest, ""⟩⟩)
    ∧ (∀ reqId bs ar e,
        (authRequestHandler reqId (.ok bs) (fun _ => .ok ar) (fun _ _ _ => .error e)).resp
          = ⟨401, .err ⟨errRequestDenied, ""⟩⟩)
    ∧ (∀ reqId bs ar r,
        (authRequestHandler reqId (.ok bs) (fun _ => .ok ar) (fun _ _ _ => .ok r)).resp
          = ⟨200, .ok r⟩)
    ∧ (∀ reqId hdr rb um h, gnapTokenOf hdr = none →
        (authContinueHandler reqId hdr rb um h).resp = ⟨401, .err ⟨errRequestDenied, ""⟩⟩
        ∧ (authContinueHandler reqId hdr rb um h).bodyRead = false)
    ∧ (∀ reqId hdr tok e um h, gnapTokenOf hdr = some tok →
        (authContinueHandler reqId hdr (.error e) um h).resp
          = ⟨500, .err ⟨errRequestDenied, ""⟩⟩)
    ∧ (∀ reqId hdr tok bs e h, gnapTokenOf hdr = some tok →
        (authContinueHandler reqId hdr (.ok bs) (fun _ => .error e) h).resp
          = ⟨400, .err ⟨errInvalidRequest, ""⟩⟩)
    ∧ (∀ reqId hdr tok bs cr e, gnapTokenOf hdr = some tok →
        (authContinueHandler reqId hdr (.ok bs) (fun _ => .ok cr) (fun _ _ _ => .error e)).resp
          = ⟨401, .err ⟨errRequestDenied, ""⟩⟩)
    ∧ (∀ reqId hdr tok bs cr r, gnapTokenOf hdr = some tok →
        (authContinueHandler reqId hdr (.ok bs) (fun _ => .ok cr) (fun _ _ _ => .ok r)).resp
          = ⟨200, .ok r⟩)
    ∧ (∀ reqId e um h, (introspectHandler reqId (.error e) um h).resp
        = ⟨500, .err ⟨errRequestDenied, ""⟩⟩)
    ∧ (∀ reqId bs e h, (introspectHandler reqId (.ok bs) (fun _ => .error e) h).resp
        = ⟨400, .err ⟨errInvalidRequest, ""⟩⟩)
    ∧ (∀ reqId bs ir e,
        (introspectHandler reqId (.ok bs) (fun _ => .ok ir) (fun _ _ => .error e)).resp
          = ⟨401, .err ⟨errRequestDenied, ""⟩⟩)
    ∧ (∀ reqId bs ir r,
        (introspectHandler reqId (.ok bs) (fun _ => .ok ir) (fun _ _ => .ok r)).resp
          = ⟨200, .ok r⟩) := by
  refine ⟨fun _ _ _ _ => rfl, fun _ _ _ _ => rfl, fun _ _ _ _ => rfl, fun _ _ _ _ => rfl,
    ?_, ?_, ?_, ?_, ?_,
    fun _ _ _ _ => rfl, fun _ _ _ _ => rfl, fun _ _ _ _ => rfl, fun _ _ _ _ => rfl⟩
  · intro reqId hdr rb um h htok
    rw [authContinueHandler_badHeader reqId hdr rb um h htok]
    exact ⟨rfl, rfl⟩
  · intro reqId hdr tok e um h htok
    rw [authContinueHandler_goodHeader reqId hdr tok (.error e) um h htok]
  · intro reqId hdr tok bs e h htok
    rw [authContinueHandler_goodHeader reqId hdr tok (.ok bs) (fun _ => .error e) h htok]
  · intro reqId hdr tok bs cr e htok
    rw [authContinueHandler_goodHeader reqId hdr tok (.ok bs) (fun _ => .ok cr)
      (fun _ _ _ => .error e) htok]
  · intro reqId hdr tok bs cr r htok
    rw [authContinueHandler_goodHeader reqId hdr tok (.ok bs) (fun _ => .ok cr)
      (fun _ _ _ => .ok r) htok]

/-- Witness for claim C3: the header-conditioned cases of the mapping at
concrete inputs: a malformed Authorization header gives 401
request_denied, and with a well-formed header an unreadable body gives
500 request_denied. -/
theorem http_adapter_error_mapping_witness :
    gnapTokenOf "bad" = none
    ∧ (authContinueHandler 0 "bad" (.error "boom")
        (fun _ => .error "x") (fun _ _ _ => .error "x")).resp
      = ⟨401, .err ⟨errRequestDenied, ""⟩⟩
    ∧ gnapTokenOf "GNAP ctok" = some "ctok"
    ∧ (authContinueHandler 0 "GNAP ctok" (.error "boom")
        (fun _ => .error "x") (fun _ _ _ => .error "x")).resp
      = ⟨500, .err ⟨errRequestDenied, ""⟩⟩ := by
  refine ⟨by decide, ?_, by decide, ?_⟩
  · exact (http_adapter_error_mapping.2.2.2.2.1 0 "bad" (.error "boom")
      (fun _ => .error "x") (fun _ _ _ => .error "x") (by decide)).1
  · exact http_adapter_error_mapping.2.2.2.2.2.1 0 "GNAP ctok" "ctok" "boom"
      (fun _ => .error "x") (fun _ _ _ => .error "x") (by decide)

/-- Claim C2 (counterexample): two failing OIDC callback requests that
differ only in why the presented state handle failed (unknown versus
expired in the transient store) receive different response bodies, and
neither body is the GNAP request_denied error object: the 400 plain-text
body embeds the store error message, so the failure cause is
disclosed. -/
theorem oidc_callback_reveals_handle_failure_cause :
    oidcCallbackHandler cbEnvLeak (.error "data not found")
        ≠ oidcCallbackHandler cbEnvLeak (.error "expired")
    ∧ (oidcCallbackHandler cbEnvLeak (.error "data not found")).status = 400
    ∧ (oidcCallbackHandler cbEnvLeak (.error "expired")).status = 400
    ∧ (oidcCallbackHandler cbEnvLeak (.error "data not found")).body
        = .text "failed to get state data to transient store: data not found"
    ∧ (oidcCallbackHandler cbEnvLeak (.error "expired")).body
        = .text "failed to get state data to transient store: expired"
    ∧ (oidcCallbackHandler cbEnvLeak (.error "data not found")).body
        ≠ RespBody.err ⟨errRequestDenied, ""⟩ := by
  refine ⟨by decide, rfl, rfl, rfl, rfl, by decide⟩

/-- Claim C2 (amended): on the three GNAP POST endpoints every failure
of the underlying handler - in particular an unknown, expired or
replayed handle - produces the identical 401 response with body error
request_denied, independent of the error; the OIDC callback endpoint,
by contrast, discloses the cause (see the counterexample). -/
theorem gnap_endpoint_failures_collapse_to_request_denied :
    (∀ reqId bs ar (e1 e2 : String),
        (authRequestHandler reqId (.ok bs) (fun _ => .ok ar) (fun _ _ _ => .error e1)).resp
          = (authRequestHandler reqId (.ok bs) (fun _ => .ok ar) (fun _ _ _ => .error e2)).resp
        ∧ (authRequestHandler reqId (.ok bs) (fun _ => .ok ar) (fun _ _ _ => .error e1)).resp
          = ⟨401, .err ⟨errRequestDenied, ""⟩⟩)
    ∧ (∀ reqId hdr bs cr (e1 e2 : String),
        (authContinueHandler reqId hdr (.ok bs) (fun _ => .ok cr) (fun _ _ _ => .error e1)).resp
          = (authContinueHandler reqId hdr (.ok bs) (fun _ => .ok cr)
              (fun _ _ _ => .error e2)).resp
        ∧ (authContinueHandler reqId hdr (.ok bs) (fun _ => .ok cr)
            (fun _ _ _ => .error e1)).resp
          = ⟨401, .err ⟨errRequestDenied, ""⟩⟩)
    ∧ (∀ reqId bs ir (e1 e2 : String),
        (introspectHandler reqId (.ok bs) (fun _ => .ok ir) (fun _ _ => .error e1)).resp
          = (introspectHandler reqId (.ok bs) (fun _ => .ok ir) (fun _ _ => .error e2)).resp
        ∧ (introspectHandler reqId (.ok bs) (fun _ => .ok ir) (fun _ _ => .error e1)).resp
          = ⟨401, .err ⟨errRequestDenied, ""⟩⟩) := by
  refine ⟨fun _ _ _ _ _ => ⟨rfl, rfl⟩, ?_, fun _ _ _ _ _ => ⟨rfl, rfl⟩⟩
  intro reqId hdr bs cr e1 e2
  rcases htok : gnapTokenOf hdr with _ | tok
  · rw [authContinueHandler_badHeader reqId hdr (.ok bs) (fun _ => .ok cr)
      (fun _ _ _ => .error e1) htok,
      authContinueHandler_badHeader reqId hdr (.ok bs) (fun _ => .ok cr)
      (fun _ _ _ => .error e2) htok]
    exact ⟨rfl, rfl⟩
  · rw [authContinueHandler_goodHeader reqId hdr tok (.ok bs) (fun _ => .ok cr)
      (fun _ _ _ => .error e1) htok,
      authContinueHandler_goodHeader reqId hdr tok (.ok bs) (fun _ => .ok cr)
      (fun _ _ _ => .error e2) htok]
    exact ⟨rfl, rfl⟩

/-- Claim C4: the OIDC callback handler does not consume the transient
record keyed by the state value: it performs only a Get on the
transient store, so the store after a callback equals the store before
it, and a second callback presenting the same state finds the record
again and succeeds, contradicting the specified one-shot behaviour.
Shown in general and at a concrete store holding one state record, on
which the replayed request is served completely (status 200). -/
theorem oidc_callback_never_consumes_state :
    (∀ env st, (runCallbackOnStore env st).2 = st)
    ∧ (runCallbackOnStore cbEnvOk [("state1", ⟨"prov1", "txn1"⟩)]).2
        = [("state1", ⟨"prov1", "txn1"⟩)]
    ∧ storeGet (runCallbackOnStore cbEnvOk [("state1", ⟨"prov1", "txn1"⟩)]).2 "state1"
        = .ok ⟨"prov1", "txn1"⟩
    ∧ (runCallbackOnStore cbEnvOk
        ((runCallbackOnStore cbEnvOk [("state1", ⟨"prov1", "txn1"⟩)]).2)).1.status = 200 := by
  refine ⟨?_, rfl, rfl, rfl⟩
  intro env st
  unfold runCallbackOnStore oidcCallbackOps
  by_cases h1 : env.state = "" <;> by_cases h2 : env.code = "" <;>
    simp [h1, h2, applyStoreOp]

/-- Claim C5 (counterexample): on a cache miss for a configured
provider, the trace of getProvider initializes the provider while
holding neither the read nor the write lock: the claimed discipline
that initialization happens under the exclusive write lock fails, and
the explicit trace shows no cache re-check between taking the write
lock and initializing (initialization precedes the write lock). -/
theorem getProvider_init_without_write_lock :
    checkTrace initUnderWriteLock ⟨0, false⟩ (getProviderTrace "p1" false true true) = false
    ∧ getProviderTrace "p1" false true true
        = [.rlock, .cacheRead "p1" false, .runlock, .initProvider "p1",
           .wlock, .cacheWrite "p1", .wunlock] := by
  refine ⟨by decide, by decide⟩

/-- Claim C5 (amended): in every getProvider trace the cache lookup
happens under the shared read lock with no writer; the read lock is
released before any initialization and initialization happens with no
lock held at all (in particular never under the read lock, but also
not under the write lock); the cache write happens under the exclusive
write lock. -/
theorem getProvider_lock_discipline (providerID : String) (cacheHit configured initOk : Bool) :
    checkTrace lookupUnderReadLock ⟨0, false⟩
        (getProviderTrace providerID cacheHit configured initOk) = true
    ∧ checkTrace initLockFree ⟨0, false⟩
        (getProviderTrace providerID cacheHit configured initOk) = true
    ∧ checkTrace writeUnderWriteLock ⟨0, false⟩
        (getProviderTrace providerID cacheHit configured initOk) = true := by
  cases cacheHit <;> cases configured <;> cases initOk <;> exact ⟨rfl, rfl, rfl⟩

/-- Claim C6 (counterexample): there is no request to the /gnap/auth
endpoint, under any body, decoder and handler environment, for which
the continuation token passed to HandleAccessRequest is non-empty: the
handler invokes it with the empty string always. -/
theorem auth_request_continue_token_never_nonempty :
    ¬ ∃ (reqId : Nat) (rb : Except String Bytes) (um : Bytes → Except String AuthRequest)
        (h : AuthRequest → VerifierKind → String → Except String AuthResponse)
        (c : AuthRequest × VerifierKind × String),
        (authRequestHandler reqId rb um h).handleCall = some c ∧ c.2.2 ≠ "" := by
  rintro ⟨reqId, rb, um, h, c, hc, hne⟩
  have h0 := authRequestHandler_token_empty reqId rb um h
  rw [hc] at h0
  exact hne h0

/-- Claim C6 (amended): every invocation of HandleAccessRequest made by
the /gnap/auth handler passes the empty string as the continuation
token; POST /gnap/auth therefore never resolves an existing transaction
through a continuation token (re-entry happens only through the
dedicated /gnap/continue endpoint). -/
theorem auth_request_passes_empty_continue_token :
    ∀ reqId rb um h,
      ((authRequestHandler reqId rb um h).handleCall).elim True (fun c => c.2.2 = "") :=
  fun reqId rb um h => authRequestHandler_token_empty reqId rb um h

/-- Claim C7: decoding an access_token field that is a single JSON
object succeeds exactly when the element decoder accepts the object,
yielding the same one-element sequence as decoding the singleton array
form; and encoding always emits a JSON array. -/
theorem access_token_single_object_decode :
    (∀ (decodeOne : Json → Option TokenRequest) (fields : List (String × Json)),
        decodeAccessTokenField decodeOne (Json.obj fields)
          = decodeAccessTokenField decodeOne (Json.arr [Json.obj fields]))
    ∧ (∀ (decodeOne : Json → Option TokenRequest) (fields : List (String × Json)),
        decodeAccessTokenField decodeOne (Json.obj fields)
          = (decodeOne (Json.obj fields)).map fun t => [t])
    ∧ (∀ (encodeOne : TokenRequest → Json) (ts : List TokenRequest),
        (encodeAccessTokenField encodeOne ts).isArr = true) := by
  refine ⟨?_, fun d fs => rfl, fun e ts => rfl⟩
  intro d fs
  unfold decodeAccessTokenField
  rcases h : d (Json.obj fs) with _ | t <;> simp [h, List.mapM, List.mapM.loop]

/-- Claim C8: for a login request with a known provider and a non-empty
transaction id, when the transient-store write succeeds the handler
stores the record of provider and transaction id under the minted state
and responds 302 to the provider authorize URL built from the state and
the scope list openid followed by the configured scopes when present,
else profile and email; a missing provider or transaction id parameter
yields 400 with no store write. -/
theorem oidc_login_flow :
    (∀ (env : LoginEnv) (p : LoginProvider) (cfg : ProviderConfig),
        env.providerID ≠ "" → env.txnID ≠ "" →
        env.getProvider env.providerID = .ok p →
        env.oidcProvidersConfig env.providerID = some cfg →
        env.putResult = .ok () →
        oidcLoginHandler env =
          (⟨302, .found (p.authCodeURL
              ("openid" :: (if cfg.scopes ≠ [] then cfg.scopes else ["profile", "email"]))
              env.state)⟩,
           [.put env.state ⟨env.providerID, env.txnID⟩]))
    ∧ (∀ env : LoginEnv, env.providerID = "" ∨ env.txnID = "" →
        (oidcLoginHandler env).1.status = 400 ∧ (oidcLoginHandler env).2 = []) := by
  constructor
  · intro env p cfg h1 h2 h3 h4 h5
    unfold oidcLoginHandler
    rw [if_neg h1, if_neg h2, h3, h4, h5]
  · intro env h
    unfold oidcLoginHandler
    by_cases h1 : env.providerID = ""
    · rw [if_pos h1]; exact ⟨rfl, rfl⟩
    · rcases h with h | h
      · exact absurd h h1
      · rw [if_neg h1, if_pos h]; exact ⟨rfl, rfl⟩

/-- Witness for claim C8: the login flow at a concrete environment with
a known provider, non-empty transaction id, empty configured scope list
and a successful store write. -/
theorem oidc_login_flow_witness :
    oidcLoginHandler loginEnvW =
      (⟨302, .found "openid profile email|state1"⟩,
       [.put "state1" ⟨"prov1", "txn1"⟩])
    ∧ (oidcLoginHandler { loginEnvW with txnID := "" }).1.status = 400
    ∧ (oidcLoginHandler { loginEnvW with txnID := "" }).2 = [] := by
  refine ⟨?_, ?_, ?_⟩
  · rw [oidc_login_flow.1 loginEnvW
      ⟨fun scopes state => String.intercalate " " scopes ++ "|" ++ state⟩ ⟨[]⟩
      (by decide) (by decide) rfl rfl rfl]
    exact rfl
  · exact (oidc_login_flow.2 { loginEnvW with txnID := "" } (Or.inr rfl)).1
  · exact (oidc_login_flow.2 { loginEnvW with txnID := "" } (Or.inr rfl)).2

theorem retryNotifyAux_attempts {α : Type} (operation : Nat → Except String α)
    (interval : Nat) :
    ∀ (fuel attempt : Nat),
      (retryNotifyAux operation interval attempt fuel).2.1 ≤ attempt + fuel + 1 := by
  intro fuel
  induction fuel with
  | zero =>
    intro attempt
    unfold retryNotifyAux
    rcases h : operation attempt with e | a <;> simp [h]
  | succ n ih =>
    intro attempt
    unfold retryNotifyAux
    rcases h : operation attempt with e | a
    · simp only [h]
      have h1 := ih (attempt + 1)
      omega
    · simp only [h]
      omega

theorem retryNotifyAux_sleeps_const {α : Type} (operation : Nat → Except String α)
    (interval : Nat) :
    ∀ (fuel attempt : Nat),
      ((retryNotifyAux operation interval attempt fuel).2.2).all (· == interval) = true := by
  intro fuel
  induction fuel with
  | zero =>
    intro attempt
    unfold retryNotifyAux
    rcases h : operation attempt with e | a <;> simp [h]
  | succ n ih =>
    intro attempt
    unfold retryNotifyAux
    rcases h : operation attempt with e | a
    · simp only [h]
      simp [List.all_cons, ih (attempt + 1)]
    · simp [h]

theorem retryNotifyAux_all_fail (e : String) (interval : Nat) :
    ∀ (fuel attempt : Nat),
      retryNotifyAux (fun _ => (.error e : Except String Unit)) interval attempt fuel
        = (.error e, attempt + fuel + 1, List.replicate fuel interval) := by
  intro fuel
  induction fuel with
  | zero => intro attempt; rfl
  | succ n ih =>
    intro attempt
    unfold retryNotifyAux
    simp only [ih (attempt + 1), List.replicate_succ, Prod.mk.injEq, eq_self_iff_true,
      and_true, true_and]
    omega

/-- Claim C9: initOIDCProvider attempts the provider network call a
bounded number of times - at most the configured startup timeout count
of retries beyond the first attempt - with a constant backoff interval
(one second) between attempts, and when every attempt fails it
terminates with an error (the wrapped last attempt error) after exactly
timeout plus one attempts. -/
theorem init_oidc_provider_bounded_retry :
    (∀ (providerID : String) (config : OIDCProviderConfig) (timeout : Nat)
        (newProvider : Nat → Except String Unit),
        (initOIDCProvider providerID config timeout newProvider).2.1 ≤ timeout + 1)
    ∧ (∀ (providerID : String) (config : OIDCProviderConfig) (timeout : Nat)
        (newProvider : Nat → Except String Unit),
        ((initOIDCProvider providerID config timeout newProvider).2.2).all
          (· == 1000) = true)
    ∧ (∀ (providerID : String) (config : OIDCProviderConfig) (timeout : Nat) (e : String),
        initOIDCProvider providerID config timeout (fun _ => .error e)
          = (.error ("failed to init oidc provider [" ++ providerID ++ "] with url ["
              ++ config.url ++ "]: " ++ e), timeout + 1, List.replicate timeout 1000)) := by
  refine ⟨?_, ?_, ?_⟩
  · intro providerID config timeout newProvider
    have h := retryNotifyAux_attempts newProvider 1000 timeout 0
    simp only [initOIDCProvider, retryWithMaxRetries]
    rcases hr : (retryNotifyAux newProvider 1000 0 timeout).1 with e | a <;>
      (simp only [hr]; omega)
  · intro providerID config timeout newProvider
    have h := retryNotifyAux_sleeps_const newProvider 1000 timeout 0
    simp only [initOIDCProvider, retryWithMaxRetries]
    rcases hr : (retryNotifyAux newProvider 1000 0 timeout).1 with e | a <;>
      (simp only [hr]; exact h)
  · intro providerID config timeout e
    have h := retryNotifyAux_all_fail e 1000 timeout 0
    simp only [initOIDCProvider, retryWithMaxRetries, h, Nat.zero_add]

/-- Claim C10: the continuation token presented to
HandleContinueRequest by the /gnap/continue handler is exactly the
second space-separated component of the Authorization header after
trimming surrounding spaces: with a split of shape GNAP, token, rest
the token variable and the presented token equal that second component
and the components in rest are ignored; when the split has fewer than
two components or its first component differs from GNAP the handler
answers 401 request_denied without reading the body and never calls
HandleContinueRequest; and the header GNAP followed by two spaces and a
token yields the empty string as the presented token. -/
theorem continue_token_extraction :
    (∀ (reqId : Nat) (hdr tok : String) (rest : List String)
        (rb : Except String Bytes) (um : Bytes → Except String ContinueRequest)
        (h : ContinueRequest → String → VerifierKind → Except String AuthResponse),
        goSplit (goTrimChar hdr ' ') ' ' = "GNAP" :: tok :: rest →
        (authContinueHandler reqId hdr rb um h).tokenVar = some tok
        ∧ ((authContinueHandler reqId hdr rb um h).handleCall).elim True
            (fun c => c.2.1 = tok))
    ∧ (∀ (reqId : Nat) (hdr : String) (rb : Except String Bytes)
        (um : Bytes → Except String ContinueRequest)
        (h : ContinueRequest → String → VerifierKind → Except String AuthResponse),
        gnapTokenOf hdr = none →
        (authContinueHandler reqId hdr rb um h).resp = ⟨401, .err ⟨errRequestDenied, ""⟩⟩
        ∧ (authContinueHandler reqId hdr rb um h).bodyRead = false
        ∧ (authContinueHandler reqId hdr rb um h).handleCall = none)
    ∧ (∀ (reqId : Nat) (rb : Except String Bytes)
        (um : Bytes → Except String ContinueRequest)
        (h : ContinueRequest → String → VerifierKind → Except String AuthResponse),
        (authContinueHandler reqId "GNAP  tok" rb um h).tokenVar = some "") := by
  refine ⟨?_, ?_, ?_⟩
  · intro reqId hdr tok rest rb um h hs
    have htok : gnapTokenOf hdr = some tok := by
      unfold gnapTokenOf; rw [hs]; simp
    constructor
    · rw [authContinueHandler_tokenVar reqId hdr rb um h, htok]
    · rw [authContinueHandler_goodHeader reqId hdr tok rb um h htok]
      rcases rb with e | bs
      · trivial
      · rcases hu : um bs with e | cr
        · simp [hu]
        · rcases hh : h cr tok (VerifierKind.httpsig reqId) with e | r <;> simp [hu, hh]
  · intro reqId hdr rb um h htok
    rw [authContinueHandler_badHeader reqId hdr rb um h htok]
    exact ⟨rfl, rfl, rfl⟩
  · intro reqId rb um h
    rw [authContinueHandler_tokenVar reqId "GNAP  tok" rb um h]
    decide

/-- Witness for claim C10: the extraction at a concrete header with
surrounding spaces and a trailing ignored component, and a concrete
rejected header whose first component is not GNAP. -/
theorem continue_token_extraction_witness :
    goSplit (goTrimChar " GNAP tok1 extra " ' ') ' ' = "GNAP" :: "tok1" :: ["extra"]
    ∧ (authContinueHandler 0 " GNAP tok1 extra " (.error "x")
        (fun _ => .error "x") (fun _ _ _ => .error "x")).tokenVar = some "tok1"
    ∧ gnapTokenOf "Token abc" = none
    ∧ (authContinueHandler 0 "Token abc" (.error "x")
        (fun _ => .error "x") (fun _ _ _ => .error "x")).resp
      = ⟨401, .err ⟨errRequestDenied, ""⟩⟩ := by
  refine ⟨by decide, ?_, by decide, ?_⟩
  · exact (continue_token_extraction.1 0 " GNAP tok1 extra " "tok1" ["extra"]
      (.error "x") (fun _ => .error "x") (fun _ _ _ => .error "x") (by decide)).1
  · exact (continue_token_extraction.2.1 0 "Token abc" (.error "x")
      (fun _ => .error "x") (fun _ _ _ => .error "x") (by decide)).1

end Gnap
